import Mathlib

/-!
# Template-resource resolution pipeline (package `chainsaw`)

A shallow embedding of `pkg/chainsaw/parse.go`, `pkg/chainsaw/template.go` and
`pkg/chainsaw/util.go`, followed by theorems about `loadTemplateResource`,
`bindingsFromMap`, `ParseResource` and `ValidateTemplate`.

The Go functions call into libraries that are not part of the repository
(the chainsaw resource loader, binding environment and templating engine, the
apimachinery scheme and converter).  Those calls are fields of the structure
`World`; every theorem quantifies over all worlds, and a theorem that needs a
property of a library states it as a premise.  A Go call returning
`(value, error)` from a library is an `Except`; the functions of the repository
itself return Go-style pairs, so that "object is nil" and "error is nil" stay
two separate observations.
-/

namespace Chainsaw

/-! ## Go errors and formatting -/

/-- A Go `error` value that is not nil: its message and, when it was built by
`fmt.Errorf` with the verb `%w`, the error it wraps. -/
inductive GoError where
  | new (msg : String)
  | wrap (msg : String) (cause : GoError)
deriving DecidableEq, Repr

/-- The method `Error()`. -/
def GoError.Error : GoError → String
  | .new msg => msg
  | .wrap msg _ => msg

/-- The method `Unwrap()`, as `errors.Unwrap` sees it. -/
def GoError.Unwrap : GoError → Option GoError
  | .new _ => none
  | .wrap _ cause => some cause

/-- The verb `%d` applied to a length: the decimal digits of the number. -/
def fmtDecimal (n : Nat) : String := Nat.repr n

/-- The string `sub` occurs in `s` (gomega `ContainSubstring`). -/
def ContainsSubstring (s sub : String) : Prop := sub.data <:+: s.data

instance (s sub : String) : Decidable (ContainsSubstring s sub) := by
  unfold ContainsSubstring; infer_instance

/-! ## Data model -/

/-- A Go value of type `any` as it occurs in an unstructured document or as a
binding value: a scalar, a sequence or a nested mapping. -/
inductive Value where
  | null
  | bool (b : Bool)
  | int (i : Int)
  | str (s : String)
  | seq (items : List Value)
  | map (fields : List (String × Value))

/-- The Go type `map[string]interface{}` of an unstructured document. -/
abbrev Content := List (String × Value)

/-- The type `unstructured.Unstructured`: a struct with the single field `Object`. -/
structure Unstructured where
  Object : Content

/-- The zero value `var r unstructured.Unstructured`. -/
def Unstructured.zero : Unstructured := ⟨[]⟩

/-- The method `UnstructuredContent()`. -/
def Unstructured.UnstructuredContent (u : Unstructured) : Content := u.Object

/-- The type `schema.GroupVersionKind`. -/
structure GroupVersionKind where
  Group : String
  Version : String
  Kind : String
deriving DecidableEq, Repr

/-- The type `v1alpha1.Projection` built by `v1alpha1.NewProjection`. -/
structure Projection where
  value : Content

/-- The constructor `v1alpha1.NewProjection`. -/
def NewProjection (value : Content) : Projection := ⟨value⟩

/-! ## External collaborators -/

/-- The type `runtime.Scheme` as the pipeline uses it: the method `New`. -/
structure Scheme (Obj : Type) where
  New : GroupVersionKind → Except GoError Obj

/-- A `client.Client` value (not nil) as the pipeline uses it: the method
`Scheme()`, whose result is a pointer and may be nil. -/
structure Client (Obj : Type) where
  Scheme : Option (Scheme Obj)

/-- The library calls made by the pipeline.  `Ctx` is `context.Context`, `Comp`
is `compilers.Compilers`, `Env` is the binding environment `apis.Bindings`,
`Obj` is `runtime.Object`. -/
structure World (Ctx Comp Env Obj : Type) where
  /-- The loader `resource.Load(path, structured)`. -/
  Load : String → Bool → Except GoError (List Unstructured)
  /-- The variable `apis.DefaultCompilers`. -/
  DefaultCompilers : Comp
  /-- The package-level `compilers` that `ValidateTemplate` refers to. -/
  compilers : Comp
  /-- The constructor `apis.NewBindings()`. -/
  NewBindings : Env
  /-- The call `bindings.RegisterBinding(ctx, env, name, value)`. -/
  RegisterBinding : Ctx → Env → String → Value → Env
  /-- The lookup of a name in an environment, as the templating engine performs it
  when it evaluates a reference to the name: the bound value, or `none` when the
  name is not defined. -/
  Get : Env → String → Option Value
  /-- The call `templating.TemplateAndMerge(ctx, compilers, obj, bindings, templates...)`. -/
  TemplateAndMerge : Ctx → Comp → Unstructured → Env → List Projection →
    Except GoError Unstructured
  /-- The call `templating.ResourceRef(ctx, compilers, &obj, bindings)`: its error. -/
  ResourceRef : Ctx → Comp → Unstructured → Env → Option GoError
  /-- The verb `%v` applied to a `schema.GroupVersionKind`. -/
  fmtGVK : GroupVersionKind → String
  /-- The method `GroupVersionKind()` of an unstructured object. -/
  GroupVersionKind : Unstructured → GroupVersionKind
  /-- The call `runtime.DefaultUnstructuredConverter.FromUnstructured(u, typed)`:
  the object behind the pointer `typed` after the call, or the error. -/
  FromUnstructured : Content → Obj → Except GoError Obj
  /-- The type assertion `typed.(client.Object)` succeeds. -/
  isClientObject : Obj → Bool
  /-- The verb `%T` applied to a runtime object. -/
  fmtType : Obj → String

variable {Ctx Comp Env Obj : Type}

/-- The contract of the binding library on which the statements about lookups
rest: the fresh environment defines no name, a registered name resolves to the
registered value, and a registration leaves the other names as they were. -/
structure LawfulBindings (w : World Ctx Comp Env Obj) : Prop where
  get_new : ∀ k : String, w.Get w.NewBindings k = none
  get_register : ∀ (ctx : Ctx) (env : Env) (k : String) (v : Value),
    w.Get (w.RegisterBinding ctx env k v) k = some v
  get_register_ne : ∀ (ctx : Ctx) (env : Env) (k : String) (v : Value) (k1 : String),
    k1 ≠ k → w.Get (w.RegisterBinding ctx env k v) k1 = w.Get env k1

/-! ## The functions of the repository -/

/-- The function `loadTemplateResource` (`template.go` lines 35-46, repeated
verbatim in `util.go` lines 14-25). -/
def loadTemplateResource (w : World Ctx Comp Env Obj) (templatePath : String) :
    Unstructured × Option GoError :=
  let r := Unstructured.zero
  match w.Load templatePath true with
  | .error err =>
    (r, some (.wrap ("failed to load template file " ++ templatePath ++ ": " ++ err.Error) err))
  | .ok resources =>
    if h : resources.length ≠ 1 then
      (r, some (.new ("expected template file " ++ templatePath ++
        " to contain a single resource; found " ++ fmtDecimal resources.length)))
    else
      have h0 : 0 < resources.length := by omega
      let r := resources[0]
      (r, none)

/-- The function `bindingsFromMap` (`template.go` lines 48-55, repeated verbatim
in `util.go` lines 27-34).  The Go map is given as the list of its entries in
the order in which `range` visits them. -/
def bindingsFromMap (w : World Ctx Comp Env Obj) (ctx : Ctx)
    (bindingsMap : List (String × Value)) : Env :=
  bindingsMap.foldl (fun bindingsObj kv => w.RegisterBinding ctx bindingsObj kv.1 kv.2)
    w.NewBindings

/-- The function `ParseResource` (`parse.go` lines 15-59).  The first component
is the returned `client.Object` (`none` is nil), the second the returned error. -/
def ParseResource (w : World Ctx Comp Env Obj) (c : Client Obj) (ctx : Ctx)
    (templatePath : String) (bindingsMap : List (String × Value)) :
    Option Obj × Option GoError :=
  match loadTemplateResource w templatePath with
  | (_, some err) => (none, some err)
  | (r, none) =>
    let bindings := bindingsFromMap w ctx bindingsMap
    let compilers := w.DefaultCompilers
    let template := NewProjection r.UnstructuredContent
    match w.TemplateAndMerge ctx compilers r bindings [template] with
    | .error err => (none, some err)
    | .ok merged =>
      let gvk := w.GroupVersionKind merged
      match c.Scheme with
      | none => (none, some (.new "client scheme is not set"))
      | some scheme =>
        match scheme.New gvk with
        | .error err =>
          (none, some (.wrap ("failed to create object for GVK " ++ w.fmtGVK gvk ++ ": " ++
            err.Error) err))
        | .ok typed =>
          match w.FromUnstructured merged.Object typed with
          | .error err =>
            (none, some (.wrap ("failed to convert unstructured to typed object: " ++
              err.Error) err))
          | .ok typed =>
            let ok := w.isClientObject typed
            if !ok then
              (none, some (.new ("object of type " ++ w.fmtType typed ++
                " does not implement client.Object")))
            else
              (some typed, none)

/-- The function `ValidateTemplate` (`template.go` lines 14-31): the returned
error, `none` for nil. -/
def ValidateTemplate (w : World Ctx Comp Env Obj) (ctx : Ctx) (templatePath : String)
    (bindingsMap : List (String × Value)) : Option GoError :=
  match loadTemplateResource w templatePath with
  | (_, some err) => some err
  | (resource, none) =>
    let bindings := bindingsFromMap w ctx bindingsMap
    match w.ResourceRef ctx w.compilers resource bindings with
    | some err => some err
    | none => none

/-! ## A concrete world: the documents of `parse_test.go`

The definitions below fix one world in which the pipeline can be run: the
documents of the test table as the loader would return them, a small resolver
for leaves of the form `($name)`, a scheme that knows the `v1` kinds `ConfigMap`
and `Status`, and a converter for them.  They serve as concrete inputs of the
theorems that hold for every world, and as the model of the libraries in the
statements that name `worldOfLoader`. -/

namespace Example

/-- The Go type `corev1.ConfigMap`, with the fields the tests set. -/
structure ConfigMap where
  APIVersion : String
  Kind : String
  Name : String
  Namespace : String
  Data : List (String × String)
deriving DecidableEq, Repr

/-- The Go type `metav1.Status`, with its type fields and message; it has no
object metadata and so is not a `client.Object`. -/
structure Status where
  APIVersion : String
  Kind : String
  Message : String
deriving DecidableEq, Repr

/-- The runtime objects of the example scheme. -/
inductive RuntimeObject where
  | configMap (o : ConfigMap)
  | status (o : Status)
deriving DecidableEq, Repr

/-- A mapping of string leaves. -/
def strFields (kvs : List (String × String)) : Content :=
  kvs.map (fun kv => (kv.1, Value.str kv.2))

/-- A document with the given type fields, metadata and, when `data` is given, a
`data` mapping. -/
def document (apiVersion kind : String) (metadata : List (String × String))
    (data : Option (List (String × String))) : Unstructured :=
  ⟨[("apiVersion", Value.str apiVersion), ("kind", Value.str kind),
      ("metadata", Value.map (strFields metadata))] ++
    (match data with
     | some d => [("data", Value.map (strFields d))]
     | none => [])⟩

/-- The document of the entry "should parse resource template". -/
def basicTemplate : Unstructured :=
  document "v1" "ConfigMap"
    [("name", "test"), ("namespace", "default")] (some [("key", "value")])

/-- The document of the entry "should parse template with bindings". -/
def bindingsTemplate : Unstructured :=
  document "v1" "ConfigMap"
    [("name", "($name)"), ("namespace", "default")] (some [("key", "($value)")])

/-- The document of the entry "should fail with undefined binding". -/
def undefinedTemplate : Unstructured :=
  document "v1" "ConfigMap"
    [("name", "($undefined)"), ("namespace", "default")] none

/-- A `ConfigMap` document with two placeholders, `($a)` and then `($b)`. -/
def twoUndefinedTemplate : Unstructured :=
  document "v1" "ConfigMap" [("name", "($a)"), ("namespace", "($b)")] none

/-- The two documents of the entry "should fail when template contains multiple
resources". -/
def multiTemplate : List Unstructured :=
  [document "v1" "ConfigMap"
     [("name", "test-multi-1"), ("namespace", "default")] (some [("key1", "value1")]),
   document "v1" "Secret"
     [("name", "test-multi-2"), ("namespace", "default")] (some [("key2", "dmFsdWUy")])]

/-- A `ConfigMap` document whose `kind` is itself a placeholder. -/
def kindTemplate : Unstructured :=
  document "v1" "($kind)"
    [("name", "test"), ("namespace", "default")] (some [("key", "value")])

/-- A document of a kind the example scheme does not know. -/
def widgetTemplate : Unstructured :=
  document "example.com/v1" "Widget"
    [("name", "w"), ("namespace", "default")] none

/-- A `ConfigMap` document whose `data.key` holds a mapping instead of a string. -/
def nestedDataTemplate : Unstructured :=
  ⟨strFields [("apiVersion", "v1"), ("kind", "ConfigMap")] ++
    [("metadata", Value.map (strFields [("name", "bad"), ("namespace", "default")])),
     ("data", Value.map [("key", Value.map (strFields [("nested", "x")]))])]⟩

/-- A `v1` `Status` document. -/
def statusTemplate : Unstructured :=
  ⟨strFields [("apiVersion", "v1"), ("kind", "Status"), ("message", "ok")]⟩

/-- The loader of the example world: a table from path to what `resource.Load`
returns for the file. -/
def exampleLoad (path : String) (_structured : Bool) : Except GoError (List Unstructured) :=
  if path = "basic.yaml" then .ok [basicTemplate]
  else if path = "bindings.yaml" then .ok [bindingsTemplate]
  else if path = "undefined.yaml" then .ok [undefinedTemplate]
  else if path = "kind.yaml" then .ok [kindTemplate]
  else if path = "two-undefined.yaml" then .ok [twoUndefinedTemplate]
  else if path = "multi.yaml" then .ok multiTemplate
  else if path = "none.yaml" then .ok []
  else if path = "widget.yaml" then .ok [widgetTemplate]
  else if path = "nested.yaml" then .ok [nestedDataTemplate]
  else if path = "status.yaml" then .ok [statusTemplate]
  else if path = "invalid.yaml" then
    .error (.new "yaml: line 2: mapping values are not allowed in this context")
  else if path = "missing-kind.yaml" then
    .error (.new "Object \x27Kind\x27 is missing in \x27unstructured object has no kind\x27")
  else if path = "empty.yaml" then .error (.new "found no resource")
  else .error (.new ("open " ++ path ++ ": no such file or directory"))

/-- Modelled from the spec: a binding is a named, immutable (name, value) pair
(the type behind `apis.Bindings` belongs to a library). -/
structure Binding where
  name : String
  value : Value

/-- Modelled from the spec: the binding environment is an ordered sequence of
bindings. -/
abbrev Bindings := List Binding

/-- Modelled from the spec: the environment with no binding in it. -/
def exampleNewBindings : Bindings := []

/-- Modelled from the spec: registration returns the environment extended with
the pair; the most recent registration comes first. -/
def exampleRegisterBinding {Ctx : Type} (_ctx : Ctx) (env : Bindings) (name : String)
    (value : Value) : Bindings :=
  ⟨name, value⟩ :: env

/-- Modelled from the spec: lookup in an environment is by name only. -/
def Bindings.Get : Bindings → String → Option Value
  | [], _ => none
  | b :: rest, name => if b.name = name then some b.value else Bindings.Get rest name

/-- The name inside a leaf of the form `($name)`. -/
def placeholderName (s : String) : Option String :=
  match s.data with
  | '(' :: '$' :: rest =>
    match rest.reverse with
    | ')' :: revName => some (String.mk revName.reverse)
    | _ => none
  | _ => none

mutual
/-- Modelled from the spec: the resolver of the templating engine (a library),
for placeholders of the form `($name)` only.  A placeholder leaf becomes the
value bound to its name, or fails when the name is not defined; any other scalar
stays; containers are rebuilt from their resolved children. -/
def resolveValue (env : Bindings) : Value → Except GoError Value
  | .str s =>
    match placeholderName s with
    | some name =>
      match env.Get name with
      | some v => .ok v
      | none => .error (.new ("variable not defined: $" ++ name))
    | none => .ok (.str s)
  | .seq items =>
    match resolveItems env items with
    | .ok items => .ok (.seq items)
    | .error e => .error e
  | .map fields =>
    match resolveFields env fields with
    | .ok fields => .ok (.map fields)
    | .error e => .error e
  | .null => .ok .null
  | .bool b => .ok (.bool b)
  | .int i => .ok (.int i)
/-- Resolution of the items of a sequence, left to right. -/
def resolveItems (env : Bindings) : List Value → Except GoError (List Value)
  | [] => .ok []
  | v :: vs =>
    match resolveValue env v with
    | .error e => .error e
    | .ok v =>
      match resolveItems env vs with
      | .error e => .error e
      | .ok vs => .ok (v :: vs)
/-- Resolution of the fields of a mapping, in the order given. -/
def resolveFields (env : Bindings) : List (String × Value) → Except GoError (List (String × Value))
  | [] => .ok []
  | (k, v) :: kvs =>
    match resolveValue env v with
    | .error e => .error e
    | .ok v =>
      match resolveFields env kvs with
      | .error e => .error e
      | .ok kvs => .ok ((k, v) :: kvs)
end

mutual
/-- The names the placeholders of a value refer to, in the order in which the
resolver meets them. -/
def referencedValue : Value → List String
  | .str s =>
    match placeholderName s with
    | some name => [name]
    | none => []
  | .seq items => referencedItems items
  | .map fields => referencedFields fields
  | .null => []
  | .bool _ => []
  | .int _ => []
/-- The names the placeholders of the items of a sequence refer to. -/
def referencedItems : List Value → List String
  | [] => []
  | v :: vs => referencedValue v ++ referencedItems vs
/-- The names the placeholders of the fields of a mapping refer to. -/
def referencedFields : List (String × Value) → List String
  | [] => []
  | (_, v) :: kvs => referencedValue v ++ referencedFields kvs
end

/-- The first of the given names that the environment does not define. -/
def firstUndefined (env : Bindings) (names : List String) : Option String :=
  names.find? (fun n => (env.Get n).isNone)

/-- Lookup of a field of a mapping. -/
def field (fields : Content) (key : String) : Option Value :=
  match fields with
  | [] => none
  | (k, v) :: rest => if k = key then some v else field rest key

/-- Merge of a resolved projection into an object: the fields of the projection
replace the fields of the same name and the other fields stay. -/
def mergeFields (obj resolved : Content) : Content :=
  resolved ++ obj.filter (fun kv => (field resolved kv.1).isNone)

/-- Modelled from the spec: the templating call of the example world.  Each
projection is resolved against the environment and merged into the object; the
first error ends the call. -/
def exampleTemplateAndMerge (_ctx : Unit) (_compilers : Unit) (obj : Unstructured)
    (env : Bindings) : List Projection → Except GoError Unstructured
  | [] => .ok obj
  | t :: ts =>
    match resolveFields env t.value with
    | .error e => .error e
    | .ok resolved => exampleTemplateAndMerge _ctx _compilers ⟨mergeFields obj.Object resolved⟩ env ts

/-- Modelled from the spec: the reference check of the example world.  The type
fields and the metadata of the object are resolved, nothing else. -/
def exampleResourceRef (_ctx : Unit) (_compilers : Unit) (obj : Unstructured)
    (env : Bindings) : Option GoError :=
  match resolveFields env
      (obj.Object.filter (fun kv => kv.1 = "apiVersion" ∨ kv.1 = "kind" ∨ kv.1 = "metadata")) with
  | .error e => some e
  | .ok _ => none

/-- A string field of a mapping: the empty string when the field is absent, an
error when it holds something that is not a string. -/
def stringField (fields : Content) (key : String) : Except GoError String :=
  match field fields key with
  | none => .ok ""
  | some (.str s) => .ok s
  | some _ => .error (.new ("field " ++ key ++ ": expected string"))

/-- A mapping field of a mapping: empty when the field is absent. -/
def mapField (fields : Content) (key : String) : Except GoError Content :=
  match field fields key with
  | none => .ok []
  | some (.map m) => .ok m
  | some _ => .error (.new ("field " ++ key ++ ": expected map"))

/-- A mapping of strings to strings read from a mapping of values. -/
def stringMap : Content → Except GoError (List (String × String))
  | [] => .ok []
  | (k, .str s) :: rest =>
    match stringMap rest with
    | .ok m => .ok ((k, s) :: m)
    | .error e => .error e
  | (k, _) :: _ => .error (.new ("field data." ++ k ++ ": expected string"))

/-- The group and the version of an `apiVersion` string. -/
def splitAPIVersion (apiVersion : String) : String × String :=
  match apiVersion.data.span (fun c => c != '/') with
  | (v, []) => ("", String.mk v)
  | (g, _ :: v) => (String.mk g, String.mk v)

/-- Modelled from the spec: the type discriminator of a tree, read from its
fields `apiVersion` and `kind` (the method `GroupVersionKind()` belongs to a
library). -/
def exampleGroupVersionKind (u : Unstructured) : GroupVersionKind :=
  match stringField u.Object "apiVersion", stringField u.Object "kind" with
  | .ok apiVersion, .ok kind =>
    ⟨(splitAPIVersion apiVersion).1, (splitAPIVersion apiVersion).2, kind⟩
  | _, _ => ⟨"", "", ""⟩

/-- The method `String()` of `schema.GroupVersionKind`. -/
def exampleFmtGVK (gvk : GroupVersionKind) : String :=
  gvk.Group ++ "/" ++ gvk.Version ++ ", Kind=" ++ gvk.Kind

/-- Modelled from the spec: the registry (the type `runtime.Scheme` belongs to a
library), with `v1` `ConfigMap` and `v1` `Status` registered; a hit allocates
the zero-valued instance, a miss is an error that names the discriminator. -/
def exampleScheme : Scheme RuntimeObject where
  New := fun gvk =>
    if gvk = ⟨"", "v1", "ConfigMap"⟩ then .ok (.configMap ⟨"", "", "", "", []⟩)
    else if gvk = ⟨"", "v1", "Status"⟩ then .ok (.status ⟨"", "", ""⟩)
    else .error (.new ("no kind \"" ++ gvk.Kind ++ "\" is registered for version \"" ++
      (if gvk.Group = "" then gvk.Version else gvk.Group ++ "/" ++ gvk.Version) ++
      "\" in scheme \"example\""))

/-- Modelled from the spec: the structural converter (the call
`FromUnstructured` belongs to a library).  The fields of the document are read
by name into the instance the registry allocated; a field of the wrong shape is
an error. -/
def exampleFromUnstructured (u : Content) : RuntimeObject → Except GoError RuntimeObject
  | .configMap _ =>
    match stringField u "apiVersion", stringField u "kind", mapField u "metadata",
        mapField u "data" with
    | .ok apiVersion, .ok kind, .ok metadata, .ok data =>
      match stringField metadata "name", stringField metadata "namespace", stringMap data with
      | .ok name, .ok ns, .ok data => .ok (.configMap ⟨apiVersion, kind, name, ns, data⟩)
      | .error e, _, _ => .error e
      | _, .error e, _ => .error e
      | _, _, .error e => .error e
    | .error e, _, _, _ => .error e
    | _, .error e, _, _ => .error e
    | _, _, .error e, _ => .error e
    | _, _, _, .error e => .error e
  | .status _ =>
    match stringField u "apiVersion", stringField u "kind", stringField u "message" with
    | .ok apiVersion, .ok kind, .ok message => .ok (.status ⟨apiVersion, kind, message⟩)
    | .error e, _, _ => .error e
    | _, .error e, _ => .error e
    | _, _, .error e => .error e

/-- The example world. -/
def exampleWorld : World Unit Unit Bindings RuntimeObject where
  Load := exampleLoad
  DefaultCompilers := ()
  compilers := ()
  NewBindings := exampleNewBindings
  RegisterBinding := exampleRegisterBinding
  Get := Bindings.Get
  TemplateAndMerge := exampleTemplateAndMerge
  ResourceRef := exampleResourceRef
  fmtGVK := exampleFmtGVK
  GroupVersionKind := exampleGroupVersionKind
  FromUnstructured := exampleFromUnstructured
  isClientObject := fun o =>
    match o with
    | .configMap _ => true
    | .status _ => false
  fmtType := fun o =>
    match o with
    | .configMap _ => "*v1.ConfigMap"
    | .status _ => "*v1.Status"

/-- The example world with another loader: the binding environment, the
resolver, the scheme and the converter stay, the files are those of `load`. -/
def worldOfLoader (load : String → Bool → Except GoError (List Unstructured)) :
    World Unit Unit Bindings RuntimeObject :=
  { exampleWorld with Load := load }

/-- The document that spells out the field values of a `ConfigMap`. -/
def ConfigMap.toDocument (cm : ConfigMap) : Unstructured :=
  document cm.APIVersion cm.Kind [("name", cm.Name), ("namespace", cm.Namespace)] (some cm.Data)

/-- A client whose scheme is the example scheme. -/
def exampleClient : Client RuntimeObject := ⟨some exampleScheme⟩

/-- A client whose scheme is nil. -/
def noSchemeClient : Client RuntimeObject := ⟨none⟩

end Example

/-! ## Auxiliary facts -/

section Aux

variable {Ctx Comp Env Obj : Type}

theorem containsSubstring_append_right (a b sub : String) (h : ContainsSubstring b sub) :
    ContainsSubstring (a ++ b) sub := by
  unfold ContainsSubstring at *
  rw [String.data_append]
  exact h.trans (List.suffix_append a.data b.data).isInfix

theorem containsSubstring_append_left (a b sub : String) (h : ContainsSubstring a sub) :
    ContainsSubstring (a ++ b) sub := by
  unfold ContainsSubstring at *
  rw [String.data_append]
  exact h.trans (List.prefix_append a.data b.data).isInfix

theorem containsSubstring_middle (a p b : String) : ContainsSubstring (a ++ p ++ b) p := by
  unfold ContainsSubstring
  rw [String.data_append, String.data_append]
  exact List.infix_append a.data p.data b.data

theorem loadTemplateResource_of_error (w : World Ctx Comp Env Obj) (templatePath : String)
    (e : GoError) (hload : w.Load templatePath true = .error e) :
    loadTemplateResource w templatePath =
      (Unstructured.zero,
        some (.wrap ("failed to load template file " ++ templatePath ++ ": " ++ e.Error) e)) := by
  simp [loadTemplateResource, hload]

theorem loadTemplateResource_of_count (w : World Ctx Comp Env Obj) (templatePath : String)
    (resources : List Unstructured) (hload : w.Load templatePath true = .ok resources)
    (hcount : resources.length ≠ 1) :
    loadTemplateResource w templatePath =
      (Unstructured.zero,
        some (.new ("expected template file " ++ templatePath ++
          " to contain a single resource; found " ++ fmtDecimal resources.length))) := by
  simp [loadTemplateResource, hload, hcount]

theorem loadTemplateResource_of_single (w : World Ctx Comp Env Obj) (templatePath : String)
    (r : Unstructured) (hload : w.Load templatePath true = .ok [r]) :
    loadTemplateResource w templatePath = (r, none) := by
  simp [loadTemplateResource, hload]

theorem ParseResource_of_load_error (w : World Ctx Comp Env Obj) (c : Client Obj) (ctx : Ctx)
    (templatePath : String) (bindingsMap : List (String × Value)) (err : GoError)
    (hload : (loadTemplateResource w templatePath).2 = some err) :
    ParseResource w c ctx templatePath bindingsMap = (none, some err) := by
  unfold ParseResource
  split
  · next h => rw [h] at hload; simp at hload; rw [hload]
  · next h => rw [h] at hload; simp at hload

theorem ValidateTemplate_of_load_error (w : World Ctx Comp Env Obj) (ctx : Ctx)
    (templatePath : String) (bindingsMap : List (String × Value)) (err : GoError)
    (hload : (loadTemplateResource w templatePath).2 = some err) :
    ValidateTemplate w ctx templatePath bindingsMap = some err := by
  unfold ValidateTemplate
  split
  · next h => rw [h] at hload; simp at hload; rw [hload]
  · next h => rw [h] at hload; simp at hload

end Aux


section Stages

variable {Ctx Comp Env Obj : Type}

theorem ParseResource_of_template_error (w : World Ctx Comp Env Obj) (c : Client Obj) (ctx : Ctx)
    (templatePath : String) (bindingsMap : List (String × Value)) (r : Unstructured)
    (err : GoError) (hload : loadTemplateResource w templatePath = (r, none))
    (htmpl : w.TemplateAndMerge ctx w.DefaultCompilers r (bindingsFromMap w ctx bindingsMap)
      [NewProjection r.UnstructuredContent] = .error err) :
    ParseResource w c ctx templatePath bindingsMap = (none, some err) := by
  simp [ParseResource, hload, htmpl]

theorem ParseResource_of_nil_scheme (w : World Ctx Comp Env Obj) (c : Client Obj) (ctx : Ctx)
    (templatePath : String) (bindingsMap : List (String × Value)) (r merged : Unstructured)
    (hload : loadTemplateResource w templatePath = (r, none))
    (htmpl : w.TemplateAndMerge ctx w.DefaultCompilers r (bindingsFromMap w ctx bindingsMap)
      [NewProjection r.UnstructuredContent] = .ok merged)
    (hscheme : c.Scheme = none) :
    ParseResource w c ctx templatePath bindingsMap =
      (none, some (.new "client scheme is not set")) := by
  simp [ParseResource, hload, htmpl, hscheme]

theorem ParseResource_of_new_error (w : World Ctx Comp Env Obj) (c : Client Obj) (ctx : Ctx)
    (templatePath : String) (bindingsMap : List (String × Value)) (r merged : Unstructured)
    (scheme : Scheme Obj) (err : GoError)
    (hload : loadTemplateResource w templatePath = (r, none))
    (htmpl : w.TemplateAndMerge ctx w.DefaultCompilers r (bindingsFromMap w ctx bindingsMap)
      [NewProjection r.UnstructuredContent] = .ok merged)
    (hscheme : c.Scheme = some scheme)
    (hnew : scheme.New (w.GroupVersionKind merged) = .error err) :
    ParseResource w c ctx templatePath bindingsMap =
      (none, some (.wrap ("failed to create object for GVK " ++
        w.fmtGVK (w.GroupVersionKind merged) ++ ": " ++ err.Error) err)) := by
  simp [ParseResource, hload, htmpl, hscheme, hnew]

theorem ParseResource_of_convert_error (w : World Ctx Comp Env Obj) (c : Client Obj) (ctx : Ctx)
    (templatePath : String) (bindingsMap : List (String × Value)) (r merged : Unstructured)
    (scheme : Scheme Obj) (typed : Obj) (err : GoError)
    (hload : loadTemplateResource w templatePath = (r, none))
    (htmpl : w.TemplateAndMerge ctx w.DefaultCompilers r (bindingsFromMap w ctx bindingsMap)
      [NewProjection r.UnstructuredContent] = .ok merged)
    (hscheme : c.Scheme = some scheme)
    (hnew : scheme.New (w.GroupVersionKind merged) = .ok typed)
    (hconv : w.FromUnstructured merged.Object typed = .error err) :
    ParseResource w c ctx templatePath bindingsMap =
      (none, some (.wrap ("failed to convert unstructured to typed object: " ++ err.Error)
        err)) := by
  simp [ParseResource, hload, htmpl, hscheme, hnew, hconv]

theorem ParseResource_of_assert_failure (w : World Ctx Comp Env Obj) (c : Client Obj) (ctx : Ctx)
    (templatePath : String) (bindingsMap : List (String × Value)) (r merged : Unstructured)
    (scheme : Scheme Obj) (typed obj : Obj)
    (hload : loadTemplateResource w templatePath = (r, none))
    (htmpl : w.TemplateAndMerge ctx w.DefaultCompilers r (bindingsFromMap w ctx bindingsMap)
      [NewProjection r.UnstructuredContent] = .ok merged)
    (hscheme : c.Scheme = some scheme)
    (hnew : scheme.New (w.GroupVersionKind merged) = .ok typed)
    (hconv : w.FromUnstructured merged.Object typed = .ok obj)
    (hobj : w.isClientObject obj = false) :
    ParseResource w c ctx templatePath bindingsMap =
      (none, some (.new ("object of type " ++ w.fmtType obj ++
        " does not implement client.Object"))) := by
  simp [ParseResource, hload, htmpl, hscheme, hnew, hconv, hobj]

theorem ParseResource_of_all_ok (w : World Ctx Comp Env Obj) (c : Client Obj) (ctx : Ctx)
    (templatePath : String) (bindingsMap : List (String × Value)) (r merged : Unstructured)
    (scheme : Scheme Obj) (typed obj : Obj)
    (hload : loadTemplateResource w templatePath = (r, none))
    (htmpl : w.TemplateAndMerge ctx w.DefaultCompilers r (bindingsFromMap w ctx bindingsMap)
      [NewProjection r.UnstructuredContent] = .ok merged)
    (hscheme : c.Scheme = some scheme)
    (hnew : scheme.New (w.GroupVersionKind merged) = .ok typed)
    (hconv : w.FromUnstructured merged.Object typed = .ok obj)
    (hobj : w.isClientObject obj = true) :
    ParseResource w c ctx templatePath bindingsMap = (some obj, none) := by
  simp [ParseResource, hload, htmpl, hscheme, hnew, hconv, hobj]

end Stages

section BindingFacts

variable {Ctx Comp Env Obj : Type}

theorem foldl_register_Get_of_not_mem (w : World Ctx Comp Env Obj) (hw : LawfulBindings w)
    (ctx : Ctx) (k : String) (l : List (String × Value)) (hk : k ∉ l.map Prod.fst) :
    ∀ acc : Env,
      w.Get (l.foldl (fun bindingsObj kv => w.RegisterBinding ctx bindingsObj kv.1 kv.2) acc) k =
        w.Get acc k := by
  induction l with
  | nil => intro acc; rfl
  | cons kv rest ih =>
    intro acc
    simp only [List.map_cons, List.mem_cons, not_or] at hk
    rw [List.foldl_cons, ih hk.2, hw.get_register_ne ctx acc kv.1 kv.2 k hk.1]

theorem foldl_register_Get_of_mem (w : World Ctx Comp Env Obj) (hw : LawfulBindings w)
    (ctx : Ctx) (k : String) (v : Value) (l : List (String × Value))
    (hnodup : (l.map Prod.fst).Nodup) (hmem : (k, v) ∈ l) :
    ∀ acc : Env,
      w.Get (l.foldl (fun bindingsObj kv => w.RegisterBinding ctx bindingsObj kv.1 kv.2) acc) k =
        some v := by
  induction l with
  | nil => simp at hmem
  | cons kv rest ih =>
    intro acc
    simp only [List.map_cons, List.nodup_cons] at hnodup
    rw [List.foldl_cons]
    rcases List.mem_cons.1 hmem with h | h
    · subst h
      rw [foldl_register_Get_of_not_mem w hw ctx k rest hnodup.1, hw.get_register]
    · exact ih hnodup.2 h _

theorem bindingsFromMap_Get_of_mem (w : World Ctx Comp Env Obj) (hw : LawfulBindings w)
    (ctx : Ctx) (m : List (String × Value))
    (hnodup : (m.map Prod.fst).Nodup) (k : String) (v : Value) (hmem : (k, v) ∈ m) :
    w.Get (bindingsFromMap w ctx m) k = some v :=
  foldl_register_Get_of_mem w hw ctx k v m hnodup hmem _

theorem bindingsFromMap_Get_of_not_mem (w : World Ctx Comp Env Obj) (hw : LawfulBindings w)
    (ctx : Ctx) (m : List (String × Value)) (k : String)
    (hk : k ∉ m.map Prod.fst) : w.Get (bindingsFromMap w ctx m) k = none := by
  unfold bindingsFromMap
  rw [foldl_register_Get_of_not_mem w hw ctx k m hk, hw.get_new]

theorem bindingsFromMap_Get_perm (w : World Ctx Comp Env Obj) (hw : LawfulBindings w)
    (ctx : Ctx) (m m1 : List (String × Value))
    (hnodup : (m.map Prod.fst).Nodup) (hperm : m1.Perm m) (k : String) :
    w.Get (bindingsFromMap w ctx m1) k = w.Get (bindingsFromMap w ctx m) k := by
  have hnodup1 : (m1.map Prod.fst).Nodup := (hperm.map Prod.fst).nodup_iff.2 hnodup
  by_cases hk : k ∈ m.map Prod.fst
  · obtain ⟨kv, hkv, rfl⟩ := List.mem_map.1 hk
    rw [bindingsFromMap_Get_of_mem w hw ctx m hnodup kv.1 kv.2 hkv,
      bindingsFromMap_Get_of_mem w hw ctx m1 hnodup1 kv.1 kv.2 (hperm.mem_iff.2 hkv)]
  · have hk1 : k ∉ m1.map Prod.fst := fun h => hk ((hperm.map Prod.fst).mem_iff.1 h)
    rw [bindingsFromMap_Get_of_not_mem w hw ctx m k hk,
      bindingsFromMap_Get_of_not_mem w hw ctx m1 k hk1]

end BindingFacts


section ExampleFacts

open Example

/-- The sequence model of the example world meets the contract of the binding
library. -/
theorem Example.exampleWorld_lawful : LawfulBindings exampleWorld where
  get_new := fun _ => rfl
  get_register := fun _ env k v => by
    simp [exampleWorld, exampleRegisterBinding, Bindings.Get]
  get_register_ne := fun _ env k v k1 h => by
    simp [exampleWorld, exampleRegisterBinding, Bindings.Get, Ne.symm h]

mutual
theorem Example.resolveValue_congr (env env1 : Bindings) (h : ∀ k, env.Get k = env1.Get k) :
    ∀ v : Value, resolveValue env v = resolveValue env1 v
  | .str s => by simp only [resolveValue, h]
  | .seq items => by simp only [resolveValue, Example.resolveItems_congr env env1 h items]
  | .map fields => by simp only [resolveValue, Example.resolveFields_congr env env1 h fields]
  | .null => by simp only [resolveValue]
  | .bool b => by simp only [resolveValue]
  | .int i => by simp only [resolveValue]
theorem Example.resolveItems_congr (env env1 : Bindings) (h : ∀ k, env.Get k = env1.Get k) :
    ∀ vs : List Value, resolveItems env vs = resolveItems env1 vs
  | [] => by simp only [resolveItems]
  | v :: vs => by
    simp only [resolveItems, Example.resolveValue_congr env env1 h v,
      Example.resolveItems_congr env env1 h vs]
theorem Example.resolveFields_congr (env env1 : Bindings) (h : ∀ k, env.Get k = env1.Get k) :
    ∀ kvs : List (String × Value), resolveFields env kvs = resolveFields env1 kvs
  | [] => by simp only [resolveFields]
  | (k, v) :: kvs => by
    simp only [resolveFields, Example.resolveValue_congr env env1 h v,
      Example.resolveFields_congr env env1 h kvs]
end

/-- The templating call of the example world sees an environment only through
its lookups. -/
theorem Example.exampleTemplateAndMerge_congr (env env1 : Bindings)
    (h : ∀ k, env.Get k = env1.Get k) (ts : List Projection) :
    ∀ obj : Unstructured, exampleTemplateAndMerge () () obj env ts =
      exampleTemplateAndMerge () () obj env1 ts := by
  induction ts with
  | nil => intro obj; rfl
  | cons t ts ih =>
    intro obj
    simp only [exampleTemplateAndMerge, Example.resolveFields_congr env env1 h t.value]
    cases resolveFields env1 t.value with
    | error e => rfl
    | ok resolved => exact ih _

end ExampleFacts

section ResolverFacts

open Example

theorem Example.firstUndefined_append (env : Bindings) (a b : List String) :
    firstUndefined env (a ++ b) = (firstUndefined env a).or (firstUndefined env b) := by
  simp [firstUndefined]

mutual
theorem Example.resolveValue_outcome (env : Bindings) : ∀ v : Value,
    (∀ n : String, firstUndefined env (referencedValue v) = some n →
      resolveValue env v = .error (.new ("variable not defined: $" ++ n))) ∧
    (firstUndefined env (referencedValue v) = none → ∃ v1 : Value, resolveValue env v = .ok v1)
  | .str s => by
    cases hp : placeholderName s with
    | none => simp [referencedValue, resolveValue, hp, firstUndefined]
    | some name =>
      cases hg : env.Get name with
      | none => simp [referencedValue, resolveValue, hp, firstUndefined, hg]
      | some v => simp [referencedValue, resolveValue, hp, firstUndefined, hg]
  | .seq items => by
    have ih := Example.resolveItems_outcome env items
    constructor
    · intro n h
      have h1 := ih.1 n (by simpa only [referencedValue] using h)
      simp only [resolveValue, h1]
    · intro h
      obtain ⟨vs, hvs⟩ := ih.2 (by simpa only [referencedValue] using h)
      exact ⟨.seq vs, by simp only [resolveValue, hvs]⟩
  | .map fields => by
    have ih := Example.resolveFields_outcome env fields
    constructor
    · intro n h
      have h1 := ih.1 n (by simpa only [referencedValue] using h)
      simp only [resolveValue, h1]
    · intro h
      obtain ⟨kvs, hkvs⟩ := ih.2 (by simpa only [referencedValue] using h)
      exact ⟨.map kvs, by simp only [resolveValue, hkvs]⟩
  | .null => by simp [referencedValue, resolveValue, firstUndefined]
  | .bool b => by simp [referencedValue, resolveValue, firstUndefined]
  | .int i => by simp [referencedValue, resolveValue, firstUndefined]
theorem Example.resolveItems_outcome (env : Bindings) : ∀ vs : List Value,
    (∀ n : String, firstUndefined env (referencedItems vs) = some n →
      resolveItems env vs = .error (.new ("variable not defined: $" ++ n))) ∧
    (firstUndefined env (referencedItems vs) = none →
      ∃ vs1 : List Value, resolveItems env vs = .ok vs1)
  | [] => by simp [referencedItems, resolveItems, firstUndefined]
  | v :: vs => by
    have ihv := Example.resolveValue_outcome env v
    have ihs := Example.resolveItems_outcome env vs
    simp only [referencedItems, Example.firstUndefined_append]
    cases hv : firstUndefined env (referencedValue v) with
    | some n0 =>
      constructor
      · intro n h
        simp only [Option.or_some, Option.some.injEq] at h
        subst h
        simp only [resolveItems, ihv.1 n0 hv]
      · intro h
        simp at h
    | none =>
      obtain ⟨v1, hv1⟩ := ihv.2 hv
      simp only [Option.none_or]
      constructor
      · intro n h
        simp only [resolveItems, hv1, ihs.1 n h]
      · intro h
        obtain ⟨vs1, hvs1⟩ := ihs.2 h
        exact ⟨v1 :: vs1, by simp only [resolveItems, hv1, hvs1]⟩
theorem Example.resolveFields_outcome (env : Bindings) : ∀ kvs : List (String × Value),
    (∀ n : String, firstUndefined env (referencedFields kvs) = some n →
      resolveFields env kvs = .error (.new ("variable not defined: $" ++ n))) ∧
    (firstUndefined env (referencedFields kvs) = none →
      ∃ kvs1 : List (String × Value), resolveFields env kvs = .ok kvs1)
  | [] => by simp [referencedFields, resolveFields, firstUndefined]
  | (k, v) :: kvs => by
    have ihv := Example.resolveValue_outcome env v
    have ihs := Example.resolveFields_outcome env kvs
    simp only [referencedFields, Example.firstUndefined_append]
    cases hv : firstUndefined env (referencedValue v) with
    | some n0 =>
      constructor
      · intro n h
        simp only [Option.or_some, Option.some.injEq] at h
        subst h
        simp only [resolveFields, ihv.1 n0 hv]
      · intro h
        simp at h
    | none =>
      obtain ⟨v1, hv1⟩ := ihv.2 hv
      simp only [Option.none_or]
      constructor
      · intro n h
        simp only [resolveFields, hv1, ihs.1 n h]
      · intro h
        obtain ⟨kvs1, hkvs1⟩ := ihs.2 h
        exact ⟨(k, v1) :: kvs1, by simp only [resolveFields, hv1, hkvs1]⟩
end

mutual
theorem Example.resolveValue_of_no_reference (env : Bindings) : ∀ v : Value,
    referencedValue v = [] → resolveValue env v = .ok v
  | .str s => by
    cases hp : placeholderName s with
    | none => simp [resolveValue, hp]
    | some name => simp [referencedValue, hp]
  | .seq items => by
    intro h
    simp only [resolveValue,
      Example.resolveItems_of_no_reference env items (by simpa only [referencedValue] using h)]
  | .map fields => by
    intro h
    simp only [resolveValue,
      Example.resolveFields_of_no_reference env fields (by simpa only [referencedValue] using h)]
  | .null => by simp [resolveValue]
  | .bool b => by simp [resolveValue]
  | .int i => by simp [resolveValue]
theorem Example.resolveItems_of_no_reference (env : Bindings) : ∀ vs : List Value,
    referencedItems vs = [] → resolveItems env vs = .ok vs
  | [] => by simp [resolveItems]
  | v :: vs => by
    intro h
    simp only [referencedItems, List.append_eq_nil] at h
    simp only [resolveItems, Example.resolveValue_of_no_reference env v h.1,
      Example.resolveItems_of_no_reference env vs h.2]
theorem Example.resolveFields_of_no_reference (env : Bindings) : ∀ kvs : List (String × Value),
    referencedFields kvs = [] → resolveFields env kvs = .ok kvs
  | [] => by simp [resolveFields]
  | (k, v) :: kvs => by
    intro h
    simp only [referencedFields, List.append_eq_nil] at h
    simp only [resolveFields, Example.resolveValue_of_no_reference env v h.1,
      Example.resolveFields_of_no_reference env kvs h.2]
end

theorem Example.field_isSome_of_mem (fields : Content) (kv : String × Value)
    (h : kv ∈ fields) : (field fields kv.1).isSome = true := by
  induction fields with
  | nil => simp at h
  | cons kv0 rest ih =>
    obtain ⟨k0, v0⟩ := kv0
    by_cases hk : k0 = kv.1
    · simp [field, hk]
    · rcases List.mem_cons.1 h with h1 | h1
      · subst h1; exact absurd rfl hk
      · simp [field, hk, ih h1]

theorem Example.mergeFields_self (obj : Content) : mergeFields obj obj = obj := by
  unfold mergeFields
  have : obj.filter (fun kv => (field obj kv.1).isNone) = [] := by
    rw [List.filter_eq_nil_iff]
    intro kv hkv
    have := Example.field_isSome_of_mem obj kv hkv
    cases hf : field obj kv.1 with
    | none => rw [hf] at this; cases this
    | some v => simp
  rw [this, List.append_nil]

theorem Example.stringMap_strFields (kvs : List (String × String)) :
    stringMap (strFields kvs) = .ok kvs := by
  induction kvs with
  | nil => rfl
  | cons kv rest ih =>
    obtain ⟨k, s⟩ := kv
    have : strFields ((k, s) :: rest) = (k, Value.str s) :: strFields rest := rfl
    rw [this]
    simp only [stringMap]
    rw [ih]

end ResolverFacts

section ModelWorldFacts

open Example

variable {Ctx Comp Env Obj : Type}

theorem foldl_register_Get_isSome_of_mem (w : World Ctx Comp Env Obj) (hw : LawfulBindings w)
    (ctx : Ctx) (k : String) (l : List (String × Value)) (hk : k ∈ l.map Prod.fst) :
    ∀ acc : Env,
      (w.Get (l.foldl (fun bindingsObj kv => w.RegisterBinding ctx bindingsObj kv.1 kv.2) acc)
        k).isSome = true := by
  induction l with
  | nil => simp at hk
  | cons kv rest ih =>
    intro acc
    rw [List.foldl_cons]
    by_cases hrest : k ∈ rest.map Prod.fst
    · exact ih hrest _
    · have hkv : k = kv.1 := by
        simp only [List.map_cons, List.mem_cons] at hk
        rcases hk with h | h
        · exact h
        · exact absurd h hrest
      subst hkv
      rw [foldl_register_Get_of_not_mem w hw ctx kv.1 rest hrest, hw.get_register]
      rfl

theorem bindingsFromMap_Get_isNone (w : World Ctx Comp Env Obj) (hw : LawfulBindings w)
    (ctx : Ctx) (m : List (String × Value)) (k : String) :
    (w.Get (bindingsFromMap w ctx m) k).isNone = decide (k ∉ m.map Prod.fst) := by
  by_cases hk : k ∈ m.map Prod.fst
  · have h := foldl_register_Get_isSome_of_mem w hw ctx k m hk w.NewBindings
    unfold bindingsFromMap
    cases hg : w.Get (m.foldl (fun bindingsObj kv => w.RegisterBinding ctx bindingsObj kv.1 kv.2)
        w.NewBindings) k with
    | none => rw [hg] at h; cases h
    | some v => simp [hk]
  · rw [bindingsFromMap_Get_of_not_mem w hw ctx m k hk]
    simp [hk]

theorem Example.worldOfLoader_lawful
    (load : String → Bool → Except GoError (List Unstructured)) :
    LawfulBindings (worldOfLoader load) where
  get_new := Example.exampleWorld_lawful.get_new
  get_register := Example.exampleWorld_lawful.get_register
  get_register_ne := Example.exampleWorld_lawful.get_register_ne

theorem Example.templateAndMerge_of_undefined (env : Bindings) (r : Unstructured) (n : String)
    (h : firstUndefined env (referencedFields r.Object) = some n) :
    exampleTemplateAndMerge () () r env [NewProjection r.UnstructuredContent] =
      .error (.new ("variable not defined: $" ++ n)) := by
  simp only [exampleTemplateAndMerge, NewProjection, Unstructured.UnstructuredContent,
    (Example.resolveFields_outcome env r.Object).1 n h]

theorem Example.templateAndMerge_of_no_reference (env : Bindings) (r : Unstructured)
    (h : referencedFields r.Object = []) :
    exampleTemplateAndMerge () () r env [NewProjection r.UnstructuredContent] = .ok r := by
  simp only [exampleTemplateAndMerge, NewProjection, Unstructured.UnstructuredContent,
    Example.resolveFields_of_no_reference env r.Object h, Example.mergeFields_self]

theorem Example.firstUndefined_bindingsFromMap
    (load : String → Bool → Except GoError (List Unstructured))
    (m : List (String × Value)) (names : List String) :
    firstUndefined (bindingsFromMap (worldOfLoader load) () m) names =
      names.find? (fun k => decide (k ∉ m.map Prod.fst)) := by
  unfold firstUndefined
  congr 1
  funext k
  exact bindingsFromMap_Get_isNone (worldOfLoader load) (Example.worldOfLoader_lawful load) () m k

theorem Example.fromUnstructured_toDocument (name ns : String) (data : List (String × String)) :
    exampleFromUnstructured
      (ConfigMap.toDocument ⟨"v1", "ConfigMap", name, ns, data⟩).Object
      (.configMap ⟨"", "", "", "", []⟩) =
      .ok (.configMap ⟨"v1", "ConfigMap", name, ns, data⟩) := by
  have hmeta : mapField (ConfigMap.toDocument ⟨"v1", "ConfigMap", name, ns, data⟩).Object
      "metadata" = .ok (strFields [("name", name), ("namespace", ns)]) := rfl
  have hdata : mapField (ConfigMap.toDocument ⟨"v1", "ConfigMap", name, ns, data⟩).Object
      "data" = .ok (strFields data) := rfl
  have hv : stringField (ConfigMap.toDocument ⟨"v1", "ConfigMap", name, ns, data⟩).Object
      "apiVersion" = .ok "v1" := rfl
  have hk : stringField (ConfigMap.toDocument ⟨"v1", "ConfigMap", name, ns, data⟩).Object
      "kind" = .ok "ConfigMap" := rfl
  have hname : stringField (strFields [("name", name), ("namespace", ns)]) "name" = .ok name :=
    rfl
  have hns : stringField (strFields [("name", name), ("namespace", ns)]) "namespace" = .ok ns :=
    rfl
  simp only [exampleFromUnstructured, hmeta, hdata, hv, hk, hname, hns,
    Example.stringMap_strFields]

end ModelWorldFacts

/-! ## The single-resource contract of `loadTemplateResource` -/

section Claims

variable {Ctx Comp Env Obj : Type}

open Example

/-- C1: when the loader returns, without error, a list of `N` resources with
`N ≠ 1` (zero, two or more), `loadTemplateResource` returns the zero-valued
resource, never the first one of the list, together with an error that wraps
nothing and whose message is exactly
`expected template file <p> to contain a single resource; found <N>`, the count
in decimal; `ParseResource` returns no object and that error, and
`ValidateTemplate` returns that error. -/
theorem loadTemplateResource_count_mismatch (w : World Ctx Comp Env Obj) (c : Client Obj)
    (ctx : Ctx) (templatePath : String) (bindingsMap : List (String × Value))
    (resources : List Unstructured)
    (hload : w.Load templatePath true = .ok resources) (hcount : resources.length ≠ 1) :
    ∃ err : GoError,
      err.Error = "expected template file " ++ templatePath ++
        " to contain a single resource; found " ++ fmtDecimal resources.length ∧
      err.Unwrap = none ∧
      loadTemplateResource w templatePath = (Unstructured.zero, some err) ∧
      ParseResource w c ctx templatePath bindingsMap = (none, some err) ∧
      ValidateTemplate w ctx templatePath bindingsMap = some err := by
  have h := loadTemplateResource_of_count w templatePath resources hload hcount
  refine ⟨.new ("expected template file " ++ templatePath ++
    " to contain a single resource; found " ++ fmtDecimal resources.length), rfl, rfl, h, ?_, ?_⟩
  · exact ParseResource_of_load_error w c ctx templatePath bindingsMap _ (by rw [h])
  · exact ValidateTemplate_of_load_error w ctx templatePath bindingsMap _ (by rw [h])

/-- Witness for C1: the two-resource file of the test table and a file with no
resource at all. -/
theorem loadTemplateResource_count_mismatch_witness :
    (exampleWorld.Load "multi.yaml" true = .ok multiTemplate ∧ multiTemplate.length ≠ 1 ∧
      ∃ err : GoError,
        err.Error = "expected template file multi.yaml to contain a single resource; found 2" ∧
        err.Unwrap = none ∧
        loadTemplateResource exampleWorld "multi.yaml" = (Unstructured.zero, some err) ∧
        ParseResource exampleWorld exampleClient () "multi.yaml" [] = (none, some err) ∧
        ValidateTemplate exampleWorld () "multi.yaml" [] = some err) ∧
    (exampleWorld.Load "none.yaml" true = .ok [] ∧
      ∃ err : GoError,
        err.Error = "expected template file none.yaml to contain a single resource; found 0" ∧
        err.Unwrap = none ∧
        loadTemplateResource exampleWorld "none.yaml" = (Unstructured.zero, some err) ∧
        ParseResource exampleWorld exampleClient () "none.yaml" [] = (none, some err) ∧
        ValidateTemplate exampleWorld () "none.yaml" [] = some err) :=
  ⟨⟨rfl, by decide,
      loadTemplateResource_count_mismatch exampleWorld exampleClient () "multi.yaml" []
        multiTemplate rfl (by decide)⟩,
    ⟨rfl,
      loadTemplateResource_count_mismatch exampleWorld exampleClient () "none.yaml" []
        [] rfl (by decide)⟩⟩

/-- C2: when the loader reports an error `e`, `loadTemplateResource` returns the
zero-valued resource and an error that wraps `e` and whose message is
`failed to load template file <p>: ` followed by the message of `e`; the message
names the path and contains every substring of the message of `e`.
`ParseResource` returns no object and that error. -/
theorem loadTemplateResource_loader_error (w : World Ctx Comp Env Obj) (c : Client Obj)
    (ctx : Ctx) (templatePath : String) (bindingsMap : List (String × Value)) (e : GoError)
    (hload : w.Load templatePath true = .error e) :
    ∃ err : GoError,
      err.Error = "failed to load template file " ++ templatePath ++ ": " ++ e.Error ∧
      err.Unwrap = some e ∧
      loadTemplateResource w templatePath = (Unstructured.zero, some err) ∧
      ParseResource w c ctx templatePath bindingsMap = (none, some err) ∧
      ContainsSubstring err.Error templatePath ∧
      ∀ sub : String, ContainsSubstring e.Error sub → ContainsSubstring err.Error sub := by
  have h := loadTemplateResource_of_error w templatePath e hload
  refine ⟨.wrap ("failed to load template file " ++ templatePath ++ ": " ++ e.Error) e,
    rfl, rfl, h, ?_, ?_, ?_⟩
  · exact ParseResource_of_load_error w c ctx templatePath bindingsMap _ (by rw [h])
  · exact containsSubstring_append_left _ _ _
      (containsSubstring_middle "failed to load template file " templatePath ": ")
  · intro sub hsub
    exact containsSubstring_append_right _ _ _ hsub

/-- Witness for C2: the file of the test table that lacks `kind`. -/
theorem loadTemplateResource_loader_error_witness :
    exampleWorld.Load "missing-kind.yaml" true =
      .error (.new "Object \x27Kind\x27 is missing in \x27unstructured object has no kind\x27") ∧
    ∃ err : GoError,
      err.Error = "failed to load template file missing-kind.yaml: Object \x27Kind\x27 is missing in \x27unstructured object has no kind\x27" ∧
      err.Unwrap =
        some (.new "Object \x27Kind\x27 is missing in \x27unstructured object has no kind\x27") ∧
      loadTemplateResource exampleWorld "missing-kind.yaml" = (Unstructured.zero, some err) ∧
      ParseResource exampleWorld exampleClient () "missing-kind.yaml" [] = (none, some err) ∧
      ContainsSubstring err.Error "missing-kind.yaml" ∧
      ContainsSubstring err.Error "Object \x27Kind\x27 is missing" := by
  refine ⟨rfl, ?_⟩
  obtain ⟨err, h1, h2, h3, h4, h5, h6⟩ :=
    loadTemplateResource_loader_error exampleWorld exampleClient () "missing-kind.yaml" []
      (.new "Object \x27Kind\x27 is missing in \x27unstructured object has no kind\x27") rfl
  exact ⟨err, h1, h2, h3, h4, h5, h6 _ (by decide)⟩

/-- C5: `ParseResource` returns either an object or an error, never both and
never neither: the returned object is nil exactly when the returned error is
not nil. -/
theorem ParseResource_object_nil_iff_error (w : World Ctx Comp Env Obj) (c : Client Obj)
    (ctx : Ctx) (templatePath : String) (bindingsMap : List (String × Value)) :
    (ParseResource w c ctx templatePath bindingsMap).1 = none ↔
      (ParseResource w c ctx templatePath bindingsMap).2 ≠ none := by
  rcases hl : loadTemplateResource w templatePath with ⟨r, _ | err⟩
  · rcases ht : w.TemplateAndMerge ctx w.DefaultCompilers r (bindingsFromMap w ctx bindingsMap)
        [NewProjection r.UnstructuredContent] with err | merged
    · simp [ParseResource_of_template_error w c ctx templatePath bindingsMap r err hl ht]
    · rcases hs : c.Scheme with _ | scheme
      · simp [ParseResource_of_nil_scheme w c ctx templatePath bindingsMap r merged hl ht hs]
      · rcases hn : scheme.New (w.GroupVersionKind merged) with err | typed
        · simp [ParseResource_of_new_error w c ctx templatePath bindingsMap r merged scheme err
            hl ht hs hn]
        · rcases hc : w.FromUnstructured merged.Object typed with err | obj
          · simp [ParseResource_of_convert_error w c ctx templatePath bindingsMap r merged
              scheme typed err hl ht hs hn hc]
          · rcases ho : w.isClientObject obj
            · simp [ParseResource_of_assert_failure w c ctx templatePath bindingsMap r merged
                scheme typed obj hl ht hs hn hc ho]
            · simp [ParseResource_of_all_ok w c ctx templatePath bindingsMap r merged
                scheme typed obj hl ht hs hn hc ho]
  · simp [ParseResource_of_load_error w c ctx templatePath bindingsMap err (by rw [hl])]

/-! ## `ValidateTemplate` against `ParseResource` -/

/-- C3, counterexample: in the example world the client has a populated scheme
(`v1` `ConfigMap` and `v1` `Status`), the file holds one `example.com/v1`
`Widget` without placeholders, and `ValidateTemplate` returns nil while
`ParseResource` returns no object and the unknown-kind error of the scheme
lookup. -/
theorem ValidateTemplate_nil_ParseResource_error :
    exampleClient.Scheme = some exampleScheme ∧
    ValidateTemplate exampleWorld () "widget.yaml" [] = none ∧
    ParseResource exampleWorld exampleClient () "widget.yaml" [] =
      (none, some (.wrap
        "failed to create object for GVK example.com/v1, Kind=Widget: no kind \"Widget\" is registered for version \"example.com/v1\" in scheme \"example\""
        (.new "no kind \"Widget\" is registered for version \"example.com/v1\" in scheme \"example\""))) ∧
    ¬ (ValidateTemplate exampleWorld () "widget.yaml" [] ≠ none ↔
      (ParseResource exampleWorld exampleClient () "widget.yaml" []).2 ≠ none) := by
  refine ⟨rfl, rfl, rfl, ?_⟩
  decide

/-- C3, amended: `ValidateTemplate` shares with `ParseResource` the load stage
and the construction of the bindings, and nothing else.  When loading fails,
both return the same load error, and `ValidateTemplate` returns nil only when
loading succeeded.  When loading yields the resource `r`, `ValidateTemplate`
returns exactly what `templating.ResourceRef` returns for `r` and the built
bindings: it has no client, and so runs no scheme lookup, no conversion and no
`client.Object` check.  In particular, when the reference check passes,
templating succeeds and the scheme has no schema for the resolved
discriminator, `ValidateTemplate` returns nil and `ParseResource` returns the
unknown-type error. -/
theorem ValidateTemplate_shares_load_stage (w : World Ctx Comp Env Obj) (c : Client Obj)
    (ctx : Ctx) (templatePath : String) (bindingsMap : List (String × Value)) :
    (∀ err : GoError, (loadTemplateResource w templatePath).2 = some err →
      ValidateTemplate w ctx templatePath bindingsMap = some err ∧
      ParseResource w c ctx templatePath bindingsMap = (none, some err)) ∧
    (∀ r : Unstructured, loadTemplateResource w templatePath = (r, none) →
      ValidateTemplate w ctx templatePath bindingsMap =
        w.ResourceRef ctx w.compilers r (bindingsFromMap w ctx bindingsMap)) ∧
    (ValidateTemplate w ctx templatePath bindingsMap = none →
      (loadTemplateResource w templatePath).2 = none) ∧
    (∀ (r merged : Unstructured) (scheme : Scheme Obj) (e : GoError),
      loadTemplateResource w templatePath = (r, none) →
      w.ResourceRef ctx w.compilers r (bindingsFromMap w ctx bindingsMap) = none →
      w.TemplateAndMerge ctx w.DefaultCompilers r (bindingsFromMap w ctx bindingsMap)
        [NewProjection r.UnstructuredContent] = .ok merged →
      c.Scheme = some scheme →
      scheme.New (w.GroupVersionKind merged) = .error e →
      ValidateTemplate w ctx templatePath bindingsMap = none ∧
      ParseResource w c ctx templatePath bindingsMap =
        (none, some (.wrap ("failed to create object for GVK " ++
          w.fmtGVK (w.GroupVersionKind merged) ++ ": " ++ e.Error) e))) := by
  have hsecond : ∀ r : Unstructured, loadTemplateResource w templatePath = (r, none) →
      ValidateTemplate w ctx templatePath bindingsMap =
        w.ResourceRef ctx w.compilers r (bindingsFromMap w ctx bindingsMap) := by
    intro r h
    simp only [ValidateTemplate, h]
    cases w.ResourceRef ctx w.compilers r (bindingsFromMap w ctx bindingsMap) <;> rfl
  refine ⟨fun err h => ⟨ValidateTemplate_of_load_error w ctx templatePath bindingsMap err h,
    ParseResource_of_load_error w c ctx templatePath bindingsMap err h⟩, hsecond, ?_, ?_⟩
  · intro h
    rcases hl : (loadTemplateResource w templatePath).2 with _ | err
    · rfl
    · rw [ValidateTemplate_of_load_error w ctx templatePath bindingsMap err hl] at h
      cases h
  · intro r merged scheme e hl hr ht hs hn
    exact ⟨(hsecond r hl).trans hr,
      ParseResource_of_new_error w c ctx templatePath bindingsMap r merged scheme e hl ht hs hn⟩

/-- Witness for C3, amended: the two-resource file fails in both functions with
the same error, and the one-resource `Widget` file is validated by the reference
check alone. -/
theorem ValidateTemplate_shares_load_stage_witness :
    (ValidateTemplate exampleWorld () "multi.yaml" [] =
        some (.new "expected template file multi.yaml to contain a single resource; found 2") ∧
      ParseResource exampleWorld exampleClient () "multi.yaml" [] =
        (none, some (.new "expected template file multi.yaml to contain a single resource; found 2"))) ∧
    ValidateTemplate exampleWorld () "widget.yaml" [] =
      exampleWorld.ResourceRef () exampleWorld.compilers widgetTemplate
        (bindingsFromMap exampleWorld () []) :=
  ⟨(ValidateTemplate_shares_load_stage exampleWorld exampleClient () "multi.yaml" []).1
      (.new "expected template file multi.yaml to contain a single resource; found 2") rfl,
    (ValidateTemplate_shares_load_stage exampleWorld exampleClient () "widget.yaml" []).2.1
      widgetTemplate rfl⟩

/-! ## Stage order and first failure -/

/-- C4: the stages of `ParseResource` run in the order load, build bindings,
template and merge, scheme lookup and instantiation, conversion, `client.Object`
check.  Building the bindings cannot fail.  For each other stage: when the
stages before it succeed and it fails, `ParseResource` returns no object and the
error of that stage, the same value, whatever the collaborators of the later
stages are (they are not constrained by the premises, so none of them is
consulted).  The error of the load stage is the error of
`loadTemplateResource`; the error of the templating stage is the error of
`templating.TemplateAndMerge`; the errors of the later stages are the ones
`ParseResource` builds itself. -/
theorem ParseResource_stops_at_first_failure (w : World Ctx Comp Env Obj) (c : Client Obj)
    (ctx : Ctx) (templatePath : String) (bindingsMap : List (String × Value)) :
    (∀ err : GoError, (loadTemplateResource w templatePath).2 = some err →
      ParseResource w c ctx templatePath bindingsMap = (none, some err)) ∧
    (∀ (r : Unstructured) (err : GoError),
      loadTemplateResource w templatePath = (r, none) →
      w.TemplateAndMerge ctx w.DefaultCompilers r (bindingsFromMap w ctx bindingsMap)
        [NewProjection r.UnstructuredContent] = .error err →
      ParseResource w c ctx templatePath bindingsMap = (none, some err)) ∧
    (∀ r merged : Unstructured,
      loadTemplateResource w templatePath = (r, none) →
      w.TemplateAndMerge ctx w.DefaultCompilers r (bindingsFromMap w ctx bindingsMap)
        [NewProjection r.UnstructuredContent] = .ok merged →
      c.Scheme = none →
      ParseResource w c ctx templatePath bindingsMap =
        (none, some (.new "client scheme is not set"))) ∧
    (∀ (r merged : Unstructured) (scheme : Scheme Obj) (err : GoError),
      loadTemplateResource w templatePath = (r, none) →
      w.TemplateAndMerge ctx w.DefaultCompilers r (bindingsFromMap w ctx bindingsMap)
        [NewProjection r.UnstructuredContent] = .ok merged →
      c.Scheme = some scheme →
      scheme.New (w.GroupVersionKind merged) = .error err →
      ParseResource w c ctx templatePath bindingsMap =
        (none, some (.wrap ("failed to create object for GVK " ++
          w.fmtGVK (w.GroupVersionKind merged) ++ ": " ++ err.Error) err))) ∧
    (∀ (r merged : Unstructured) (scheme : Scheme Obj) (typed : Obj) (err : GoError),
      loadTemplateResource w templatePath = (r, none) →
      w.TemplateAndMerge ctx w.DefaultCompilers r (bindingsFromMap w ctx bindingsMap)
        [NewProjection r.UnstructuredContent] = .ok merged →
      c.Scheme = some scheme →
      scheme.New (w.GroupVersionKind merged) = .ok typed →
      w.FromUnstructured merged.Object typed = .error err →
      ParseResource w c ctx templatePath bindingsMap =
        (none, some (.wrap ("failed to convert unstructured to typed object: " ++ err.Error)
          err))) ∧
    (∀ (r merged : Unstructured) (scheme : Scheme Obj) (typed obj : Obj),
      loadTemplateResource w templatePath = (r, none) →
      w.TemplateAndMerge ctx w.DefaultCompilers r (bindingsFromMap w ctx bindingsMap)
        [NewProjection r.UnstructuredContent] = .ok merged →
      c.Scheme = some scheme →
      scheme.New (w.GroupVersionKind merged) = .ok typed →
      w.FromUnstructured merged.Object typed = .ok obj →
      w.isClientObject obj = false →
      ParseResource w c ctx templatePath bindingsMap =
        (none, some (.new ("object of type " ++ w.fmtType obj ++
          " does not implement client.Object")))) :=
  ⟨fun err h => ParseResource_of_load_error w c ctx templatePath bindingsMap err h,
    fun r err hl ht => ParseResource_of_template_error w c ctx templatePath bindingsMap r err hl ht,
    fun r merged hl ht hs =>
      ParseResource_of_nil_scheme w c ctx templatePath bindingsMap r merged hl ht hs,
    fun r merged scheme err hl ht hs hn =>
      ParseResource_of_new_error w c ctx templatePath bindingsMap r merged scheme err hl ht hs hn,
    fun r merged scheme typed err hl ht hs hn hc =>
      ParseResource_of_convert_error w c ctx templatePath bindingsMap r merged scheme typed err
        hl ht hs hn hc,
    fun r merged scheme typed obj hl ht hs hn hc ho =>
      ParseResource_of_assert_failure w c ctx templatePath bindingsMap r merged scheme typed obj
        hl ht hs hn hc ho⟩

/-- Witness for C4, one input per stage: a file with two resources and a client
whose scheme is nil yields the count error of the load stage, not
`client scheme is not set`; a file with an undefined binding yields the error of
the templating stage although the scheme is nil; a one-resource file with that
client yields `client scheme is not set`; then an unregistered kind, a field of
the wrong shape and a registered kind that is no `client.Object`. -/
theorem ParseResource_stops_at_first_failure_witness :
    ParseResource exampleWorld noSchemeClient () "multi.yaml" [] =
      (none, some (.new "expected template file multi.yaml to contain a single resource; found 2")) ∧
    ParseResource exampleWorld noSchemeClient () "undefined.yaml"
        [("name", .str "test-invalid-binding")] =
      (none, some (.new "variable not defined: $undefined")) ∧
    ParseResource exampleWorld noSchemeClient () "basic.yaml" [] =
      (none, some (.new "client scheme is not set")) ∧
    ParseResource exampleWorld exampleClient () "widget.yaml" [] =
      (none, some (.wrap
        "failed to create object for GVK example.com/v1, Kind=Widget: no kind \"Widget\" is registered for version \"example.com/v1\" in scheme \"example\""
        (.new "no kind \"Widget\" is registered for version \"example.com/v1\" in scheme \"example\""))) ∧
    ParseResource exampleWorld exampleClient () "nested.yaml" [] =
      (none, some (.wrap
        "failed to convert unstructured to typed object: field data.key: expected string"
        (.new "field data.key: expected string"))) ∧
    ParseResource exampleWorld exampleClient () "status.yaml" [] =
      (none, some (.new "object of type *v1.Status does not implement client.Object")) :=
  ⟨(ParseResource_stops_at_first_failure exampleWorld noSchemeClient () "multi.yaml" []).1
      (.new "expected template file multi.yaml to contain a single resource; found 2") rfl,
    (ParseResource_stops_at_first_failure exampleWorld noSchemeClient () "undefined.yaml"
      [("name", .str "test-invalid-binding")]).2.1 undefinedTemplate
      (.new "variable not defined: $undefined") rfl rfl,
    (ParseResource_stops_at_first_failure exampleWorld noSchemeClient () "basic.yaml" []).2.2.1
      basicTemplate basicTemplate rfl rfl rfl,
    (ParseResource_stops_at_first_failure exampleWorld exampleClient () "widget.yaml"
      []).2.2.2.1 widgetTemplate widgetTemplate exampleScheme
      (.new "no kind \"Widget\" is registered for version \"example.com/v1\" in scheme \"example\"")
      rfl rfl rfl rfl,
    (ParseResource_stops_at_first_failure exampleWorld exampleClient () "nested.yaml"
      []).2.2.2.2.1 nestedDataTemplate nestedDataTemplate exampleScheme
      (.configMap ⟨"", "", "", "", []⟩) (.new "field data.key: expected string")
      rfl rfl rfl rfl rfl,
    (ParseResource_stops_at_first_failure exampleWorld exampleClient () "status.yaml"
      []).2.2.2.2.2 statusTemplate statusTemplate exampleScheme (.status ⟨"", "", ""⟩)
      (.status ⟨"v1", "Status", "ok"⟩) rfl rfl rfl rfl rfl rfl⟩

/-! ## Undefined bindings -/

/-- C6, counterexample: the document holds `name: ($a)` and `namespace: ($b)`
and the bindings map is empty, so `b` is referenced and is no key of the map;
`ParseResource` fails with `variable not defined: $a`, and that message does not
contain `variable not defined: $b`. -/
theorem ParseResource_undefined_binding_names_first_only :
    loadTemplateResource exampleWorld "two-undefined.yaml" = (twoUndefinedTemplate, none) ∧
    "b" ∈ referencedFields twoUndefinedTemplate.Object ∧
    "b" ∉ ([] : List (String × Value)).map Prod.fst ∧
    ParseResource exampleWorld exampleClient () "two-undefined.yaml" [] =
      (none, some (.new "variable not defined: $a")) ∧
    ¬ ContainsSubstring (GoError.new "variable not defined: $a").Error
      "variable not defined: $b" :=
  ⟨rfl, by decide, by decide, rfl, by decide⟩

/-- C6, amended: with the resolver of the templating engine as the spec
describes it (placeholders of the form `($name)`), whatever the loader and the
client are: when loading yields the single resource `r` and `r` holds a
placeholder whose name is no key of the bindings map, `ParseResource` returns no
object and the error of the templating stage itself, whose message is
`variable not defined: $<n>` for the first referenced name `n`, in the order in
which the resolver meets them, that is no key of the map.  The message names
that identifier only; it names `name` when `name` is the only referenced name
that the map lacks. -/
theorem ParseResource_undefined_binding
    (load : String → Bool → Except GoError (List Unstructured)) (c : Client RuntimeObject)
    (templatePath : String) (bindingsMap : List (String × Value))
    (r : Unstructured) (name : String)
    (hload : loadTemplateResource (worldOfLoader load) templatePath = (r, none))
    (href : name ∈ referencedFields r.Object)
    (hname : name ∉ bindingsMap.map Prod.fst) :
    ∃ n : String,
      (referencedFields r.Object).find? (fun k => decide (k ∉ bindingsMap.map Prod.fst)) =
        some n ∧
      n ∈ referencedFields r.Object ∧
      n ∉ bindingsMap.map Prod.fst ∧
      (worldOfLoader load).TemplateAndMerge () (worldOfLoader load).DefaultCompilers r
        (bindingsFromMap (worldOfLoader load) () bindingsMap)
        [NewProjection r.UnstructuredContent] =
        .error (.new ("variable not defined: $" ++ n)) ∧
      ParseResource (worldOfLoader load) c () templatePath bindingsMap =
        (none, some (.new ("variable not defined: $" ++ n))) ∧
      ((∀ k ∈ referencedFields r.Object, k ∉ bindingsMap.map Prod.fst → k = name) →
        n = name) := by
  have hsome : ((referencedFields r.Object).find?
      (fun k => decide (k ∉ bindingsMap.map Prod.fst))).isSome = true := by
    rw [List.find?_isSome]
    exact ⟨name, href, by simpa using hname⟩
  obtain ⟨n, hn⟩ := Option.isSome_iff_exists.1 hsome
  have hmem : n ∈ referencedFields r.Object := List.mem_of_find?_eq_some hn
  have hkey : n ∉ bindingsMap.map Prod.fst := by
    have := List.find?_some hn
    simpa using this
  have htmpl : (worldOfLoader load).TemplateAndMerge () (worldOfLoader load).DefaultCompilers r
      (bindingsFromMap (worldOfLoader load) () bindingsMap)
      [NewProjection r.UnstructuredContent] =
      .error (.new ("variable not defined: $" ++ n)) :=
    Example.templateAndMerge_of_undefined _ r n
      ((Example.firstUndefined_bindingsFromMap load bindingsMap _).trans hn)
  exact ⟨n, hn, hmem, hkey, htmpl,
    ParseResource_of_template_error (worldOfLoader load) c () templatePath bindingsMap r _
      hload htmpl,
    fun honly => honly n hmem hkey⟩

/-- Witness for C6, amended: the entry "should fail with undefined binding" of
the test table, `name: ($undefined)` with the bindings
`name = test-invalid-binding`. -/
theorem ParseResource_undefined_binding_witness :
    loadTemplateResource exampleWorld "undefined.yaml" = (undefinedTemplate, none) ∧
    "undefined" ∈ referencedFields undefinedTemplate.Object ∧
    "undefined" ∉ [("name", Value.str "test-invalid-binding")].map Prod.fst ∧
    ParseResource exampleWorld exampleClient () "undefined.yaml"
        [("name", .str "test-invalid-binding")] =
      (none, some (.new "variable not defined: $undefined")) := by
  refine ⟨rfl, by decide, by decide, ?_⟩
  obtain ⟨n, _, _, _, _, hp, honly⟩ :=
    ParseResource_undefined_binding exampleLoad exampleClient "undefined.yaml"
      [("name", .str "test-invalid-binding")] undefinedTemplate "undefined"
      rfl (by decide) (by decide)
  have hn : n = "undefined" := honly (by decide)
  subst hn
  exact hp

/-! ## The returned object -/

/-- C7: three parts.  First, for every world: when every stage succeeds,
`ParseResource` returns, with a nil error, exactly the object the converter
produces from the resolved tree `merged` and the fresh instance that the scheme
of the client allocates for the type discriminator of `merged` (the resolved
tree, not the loaded tree `r`).  Second, with the resolver of the templating
engine as the spec describes it, whatever the loader: a loaded document without
placeholders is its own resolved tree, whatever the bindings.  Third, with the
scheme and the structural converter of the spec as well: for every `ConfigMap`
value `cm` of `v1` whose strings are no placeholders, `ParseResource` on the
document that spells out the field values of `cm` returns `cm` itself, the
object built by hand from the same field values, whatever the bindings. -/
theorem ParseResource_returns_converted_object (w : World Ctx Comp Env Obj) (c : Client Obj)
    (ctx : Ctx) (templatePath : String) (bindingsMap : List (String × Value)) :
    (∀ (r merged : Unstructured) (scheme : Scheme Obj) (typed obj : Obj),
      loadTemplateResource w templatePath = (r, none) →
      w.TemplateAndMerge ctx w.DefaultCompilers r (bindingsFromMap w ctx bindingsMap)
        [NewProjection r.UnstructuredContent] = .ok merged →
      c.Scheme = some scheme →
      scheme.New (w.GroupVersionKind merged) = .ok typed →
      w.FromUnstructured merged.Object typed = .ok obj →
      w.isClientObject obj = true →
      ParseResource w c ctx templatePath bindingsMap = (some obj, none)) ∧
    (∀ (load : String → Bool → Except GoError (List Unstructured)) (r : Unstructured),
      loadTemplateResource (worldOfLoader load) templatePath = (r, none) →
      referencedFields r.Object = [] →
      (worldOfLoader load).TemplateAndMerge () (worldOfLoader load).DefaultCompilers r
        (bindingsFromMap (worldOfLoader load) () bindingsMap)
        [NewProjection r.UnstructuredContent] = .ok r) ∧
    (∀ (load : String → Bool → Except GoError (List Unstructured)) (cm : ConfigMap),
      loadTemplateResource (worldOfLoader load) templatePath = (cm.toDocument, none) →
      cm.APIVersion = "v1" →
      cm.Kind = "ConfigMap" →
      referencedFields cm.toDocument.Object = [] →
      ParseResource (worldOfLoader load) exampleClient () templatePath bindingsMap =
        (some (.configMap cm), none)) := by
  refine ⟨fun r merged scheme typed obj hload htmpl hscheme hnew hconv hobj =>
    ParseResource_of_all_ok w c ctx templatePath bindingsMap r merged scheme typed obj
      hload htmpl hscheme hnew hconv hobj, ?_, ?_⟩
  · intro load r _ href
    exact Example.templateAndMerge_of_no_reference _ r href
  · intro load cm hload hv hk href
    obtain ⟨apiVersion, kind, name, ns, data⟩ := cm
    simp only at hv hk
    subst hv hk
    exact ParseResource_of_all_ok (worldOfLoader load) exampleClient () templatePath
      bindingsMap _ _ exampleScheme (.configMap ⟨"", "", "", "", []⟩) _ hload
      (Example.templateAndMerge_of_no_reference _ _ href) rfl rfl
      (Example.fromUnstructured_toDocument name ns data) rfl

/-- Witness for C7: the `v1` `ConfigMap` `test` in `default` with data
`key: value`, without placeholders, parses to the `ConfigMap` built by hand from
the same field values; and a document whose `kind` is the placeholder `($kind)`
parses to the same object once `kind` is bound to `ConfigMap`, although the
discriminator of the loaded tree is not registered in the scheme. -/
theorem ParseResource_returns_converted_object_witness :
    ParseResource exampleWorld exampleClient () "basic.yaml" [] =
      (some (.configMap
        { APIVersion := "v1", Kind := "ConfigMap", Name := "test", Namespace := "default",
          Data := [("key", "value")] }), none) ∧
    ParseResource exampleWorld exampleClient () "kind.yaml" [("kind", .str "ConfigMap")] =
      (some (.configMap
        { APIVersion := "v1", Kind := "ConfigMap", Name := "test", Namespace := "default",
          Data := [("key", "value")] }), none) ∧
    exampleScheme.New (exampleWorld.GroupVersionKind kindTemplate) =
      .error (.new "no kind \"($kind)\" is registered for version \"v1\" in scheme \"example\"") :=
  ⟨(ParseResource_returns_converted_object exampleWorld exampleClient () "basic.yaml" []).2.2
      exampleLoad ⟨"v1", "ConfigMap", "test", "default", [("key", "value")]⟩
      rfl rfl rfl (by decide),
    (ParseResource_returns_converted_object exampleWorld exampleClient () "kind.yaml"
      [("kind", .str "ConfigMap")]).1 kindTemplate basicTemplate exampleScheme
      (.configMap ⟨"", "", "", "", []⟩)
      (.configMap ⟨"v1", "ConfigMap", "test", "default", [("key", "value")]⟩)
      rfl rfl rfl rfl rfl rfl,
    rfl⟩

/-! ## The binding environment -/

/-- C8: let the binding library meet its contract, let the bindings map have
the entries `m` (one entry per name) and let `range` visit them in any order
`m1`.  The environment `bindingsFromMap` builds resolves every name of the map
to the value the map gives it, resolves no other name, and resolves every name
as the environment built in the order `m` does.  `bindingsFromMap` has no error
result: it is a total function into environments. -/
theorem bindingsFromMap_resolves_by_name (w : World Ctx Comp Env Obj) (ctx : Ctx)
    (m m1 : List (String × Value))
    (hw : LawfulBindings w) (hnodup : (m.map Prod.fst).Nodup) (hperm : m1.Perm m) :
    (∀ (k : String) (v : Value), (k, v) ∈ m → w.Get (bindingsFromMap w ctx m1) k = some v) ∧
    (∀ k : String, k ∉ m.map Prod.fst → w.Get (bindingsFromMap w ctx m1) k = none) ∧
    (∀ k : String, w.Get (bindingsFromMap w ctx m1) k = w.Get (bindingsFromMap w ctx m) k) := by
  have hnodup1 : (m1.map Prod.fst).Nodup := (hperm.map Prod.fst).nodup_iff.2 hnodup
  refine ⟨fun k v hmem => ?_, fun k hk => ?_, fun k => ?_⟩
  · exact bindingsFromMap_Get_of_mem w hw ctx m1 hnodup1 k v (hperm.mem_iff.2 hmem)
  · exact bindingsFromMap_Get_of_not_mem w hw ctx m1 k
      (fun h => hk ((hperm.map Prod.fst).mem_iff.1 h))
  · exact bindingsFromMap_Get_perm w hw ctx m m1 hnodup hperm k

/-- Witness for C8: the bindings of the entry "should parse template with
bindings", visited in the order opposite to the one written in the test. -/
theorem bindingsFromMap_resolves_by_name_witness :
    exampleWorld.Get (bindingsFromMap exampleWorld ()
      [("value", Value.str "bound-value"), ("name", Value.str "test-bindings")])
        "name" = some (Value.str "test-bindings") ∧
    exampleWorld.Get (bindingsFromMap exampleWorld ()
      [("value", Value.str "bound-value"), ("name", Value.str "test-bindings")])
        "value" = some (Value.str "bound-value") ∧
    exampleWorld.Get (bindingsFromMap exampleWorld ()
      [("value", Value.str "bound-value"), ("name", Value.str "test-bindings")])
        "undefined" = none := by
  have h := bindingsFromMap_resolves_by_name exampleWorld ()
    [("name", Value.str "test-bindings"), ("value", Value.str "bound-value")]
    [("value", Value.str "bound-value"), ("name", Value.str "test-bindings")]
    Example.exampleWorld_lawful (by decide) (List.Perm.swap _ _ _)
  exact ⟨h.1 "name" _ (by simp), h.1 "value" _ (by simp), h.2.1 "undefined" (by decide)⟩

/-! ## Unknown type discriminators -/

/-- C9: when loading and templating succeed, the scheme of the client is set and
it has no schema for the type discriminator of the resolved tree, so that
`scheme.New` reports an error `e`, `ParseResource` returns no object and an
error that wraps `e` and whose message is `failed to create object for GVK <gvk>: `
followed by the message of `e`; the message names the discriminator.  The result
is the same whatever the converter and the `client.Object` assertion are:
conversion is not attempted. -/
theorem ParseResource_unregistered_type (w : World Ctx Comp Env Obj) (c : Client Obj)
    (ctx : Ctx) (templatePath : String) (bindingsMap : List (String × Value))
    (r merged : Unstructured) (scheme : Scheme Obj) (e : GoError)
    (hload : loadTemplateResource w templatePath = (r, none))
    (htmpl : w.TemplateAndMerge ctx w.DefaultCompilers r (bindingsFromMap w ctx bindingsMap)
      [NewProjection r.UnstructuredContent] = .ok merged)
    (hscheme : c.Scheme = some scheme)
    (hnew : scheme.New (w.GroupVersionKind merged) = .error e) :
    ∃ err : GoError,
      err.Error = "failed to create object for GVK " ++ w.fmtGVK (w.GroupVersionKind merged) ++
        ": " ++ e.Error ∧
      err.Unwrap = some e ∧
      ContainsSubstring err.Error (w.fmtGVK (w.GroupVersionKind merged)) ∧
      (∀ sub : String, ContainsSubstring e.Error sub → ContainsSubstring err.Error sub) ∧
      ParseResource w c ctx templatePath bindingsMap = (none, some err) ∧
      ∀ (conv : Content → Obj → Except GoError Obj) (isObj : Obj → Bool),
        ParseResource { w with FromUnstructured := conv, isClientObject := isObj } c ctx
          templatePath bindingsMap = (none, some err) := by
  refine ⟨.wrap ("failed to create object for GVK " ++ w.fmtGVK (w.GroupVersionKind merged) ++
    ": " ++ e.Error) e, rfl, rfl, ?_, ?_, ?_, ?_⟩
  · exact containsSubstring_append_left _ _ _
      (containsSubstring_middle "failed to create object for GVK " _ ": ")
  · intro sub hsub
    exact containsSubstring_append_right _ _ _ hsub
  · exact ParseResource_of_new_error w c ctx templatePath bindingsMap r merged scheme e
      hload htmpl hscheme hnew
  · intro conv isObj
    exact ParseResource_of_new_error { w with FromUnstructured := conv, isClientObject := isObj }
      c ctx templatePath bindingsMap r merged scheme e hload htmpl hscheme hnew

/-- Witness for C9: an `example.com/v1` `Widget` against a scheme that knows the
`v1` kinds `ConfigMap` and `Status` only. -/
theorem ParseResource_unregistered_type_witness :
    exampleScheme.New (exampleWorld.GroupVersionKind widgetTemplate) =
      .error (.new "no kind \"Widget\" is registered for version \"example.com/v1\" in scheme \"example\"") ∧
    ∃ err : GoError,
      err.Error = "failed to create object for GVK example.com/v1, Kind=Widget: no kind \"Widget\" is registered for version \"example.com/v1\" in scheme \"example\"" ∧
      err.Unwrap = some (.new "no kind \"Widget\" is registered for version \"example.com/v1\" in scheme \"example\"") ∧
      ContainsSubstring err.Error "example.com/v1, Kind=Widget" ∧
      ParseResource exampleWorld exampleClient () "widget.yaml" [] = (none, some err) := by
  refine ⟨rfl, ?_⟩
  obtain ⟨err, h1, h2, h3, _, h5, _⟩ :=
    ParseResource_unregistered_type exampleWorld exampleClient () "widget.yaml" []
      widgetTemplate widgetTemplate exampleScheme
      (.new "no kind \"Widget\" is registered for version \"example.com/v1\" in scheme \"example\"")
      rfl rfl rfl rfl
  exact ⟨err, h1, h2, h3, h5⟩

/-! ## Determinism -/

/-- C10: `ParseResource` keeps no state between calls: its result is a function
of the loader's answer for the path, of the bindings map and of the client.  Two
calls on the same path, client and bindings map return equal results (equal
objects, equal errors and so equal messages), whatever the orders `m1` and `m2`
in which the two calls visit the entries `m` of the map, provided the binding
library meets its contract and the templating engine sees an environment
through its lookups by name only. -/
theorem ParseResource_deterministic (w : World Ctx Comp Env Obj) (c : Client Obj)
    (ctx : Ctx) (templatePath : String) (m m1 m2 : List (String × Value))
    (hw : LawfulBindings w)
    (hnodup : (m.map Prod.fst).Nodup) (hperm1 : m1.Perm m) (hperm2 : m2.Perm m)
    (hengine : ∀ (obj : Unstructured) (env env1 : Env) (ts : List Projection),
      (∀ k : String, w.Get env k = w.Get env1 k) →
      w.TemplateAndMerge ctx w.DefaultCompilers obj env ts =
        w.TemplateAndMerge ctx w.DefaultCompilers obj env1 ts) :
    ParseResource w c ctx templatePath m1 = ParseResource w c ctx templatePath m2 := by
  have hget : ∀ k : String,
      w.Get (bindingsFromMap w ctx m1) k = w.Get (bindingsFromMap w ctx m2) k :=
    fun k => (bindingsFromMap_Get_perm w hw ctx m m1 hnodup hperm1 k).trans
      (bindingsFromMap_Get_perm w hw ctx m m2 hnodup hperm2 k).symm
  unfold ParseResource
  rcases loadTemplateResource w templatePath with ⟨r, _ | err⟩
  · simp only [hengine r _ _ [NewProjection r.UnstructuredContent] hget]
  · rfl

/-- Witness for C10: the entry "should parse template with bindings" with its
two bindings visited in either order. -/
theorem ParseResource_deterministic_witness :
    ParseResource exampleWorld exampleClient () "bindings.yaml"
        [("value", .str "bound-value"), ("name", .str "test-bindings")] =
      ParseResource exampleWorld exampleClient () "bindings.yaml"
        [("name", .str "test-bindings"), ("value", .str "bound-value")] ∧
    ParseResource exampleWorld exampleClient () "bindings.yaml"
        [("name", .str "test-bindings"), ("value", .str "bound-value")] =
      (some (.configMap
        { APIVersion := "v1", Kind := "ConfigMap", Name := "test-bindings",
          Namespace := "default", Data := [("key", "bound-value")] }), none) :=
  ⟨ParseResource_deterministic exampleWorld exampleClient () "bindings.yaml"
      [("name", .str "test-bindings"), ("value", .str "bound-value")]
      [("value", .str "bound-value"), ("name", .str "test-bindings")]
      [("name", .str "test-bindings"), ("value", .str "bound-value")]
      Example.exampleWorld_lawful
      (by decide) (List.Perm.swap _ _ _) (List.Perm.refl _)
      (fun obj env env1 ts h => Example.exampleTemplateAndMerge_congr env env1 h ts obj),
    rfl⟩


/-! ## Further properties of the load stage and of the error results -/

/-- X1: `loadTemplateResource` returns a nil error exactly when the loader
returns, without error, a list of exactly one resource; the resource it then
returns is that one. -/
theorem loadTemplateResource_ok_iff_single (w : World Ctx Comp Env Obj)
    (templatePath : String) (r : Unstructured) :
    loadTemplateResource w templatePath = (r, none) ↔ w.Load templatePath true = .ok [r] := by
  constructor
  · intro h
    rcases hl : w.Load templatePath true with e | resources
    · rw [loadTemplateResource_of_error w templatePath e hl] at h
      cases h
    · by_cases hc : resources.length ≠ 1
      · rw [loadTemplateResource_of_count w templatePath resources hl hc] at h
        cases h
      · match resources, hc with
        | [r0], _ =>
          rw [loadTemplateResource_of_single w templatePath r0 hl] at h
          cases h
          rfl
        | [], hc => exact absurd (by simp) hc
        | _ :: _ :: _, hc => exact absurd (by simp) hc
  · exact loadTemplateResource_of_single w templatePath r

/-- X2: `loadTemplateResource` asks the loader for structured parsing only: two
worlds whose loaders agree on the path with the flag `true` give the same
result, whatever they answer with the flag `false`. -/
theorem loadTemplateResource_structured_only (w w1 : World Ctx Comp Env Obj)
    (templatePath : String) (h : w.Load templatePath true = w1.Load templatePath true) :
    loadTemplateResource w templatePath = loadTemplateResource w1 templatePath := by
  unfold loadTemplateResource
  rw [h]

/-- Witness for X2: the example loader and a loader that refuses every
unstructured request. -/
theorem loadTemplateResource_structured_only_witness :
    loadTemplateResource exampleWorld "basic.yaml" =
      loadTemplateResource
        { exampleWorld with
          Load := fun path structured =>
            if structured then exampleLoad path structured
            else .error (.new "unstructured loading is not available") }
        "basic.yaml" :=
  loadTemplateResource_structured_only exampleWorld _ "basic.yaml" rfl

/-- X3: every error `ParseResource` returns is the error of the load stage, the
error of the templating engine, or one of the four errors `ParseResource` builds
itself: the nil-scheme error, the wrapped error of `scheme.New`, the wrapped
error of the converter, or the failed `client.Object` assertion. -/
theorem ParseResource_error_taxonomy (w : World Ctx Comp Env Obj) (c : Client Obj)
    (ctx : Ctx) (templatePath : String) (bindingsMap : List (String × Value)) (err : GoError)
    (herr : (ParseResource w c ctx templatePath bindingsMap).2 = some err) :
    (loadTemplateResource w templatePath).2 = some err ∨
    (∃ r : Unstructured,
      w.TemplateAndMerge ctx w.DefaultCompilers r (bindingsFromMap w ctx bindingsMap)
        [NewProjection r.UnstructuredContent] = .error err) ∨
    err = .new "client scheme is not set" ∨
    (∃ (gvk : GroupVersionKind) (e : GoError),
      err = .wrap ("failed to create object for GVK " ++ w.fmtGVK gvk ++ ": " ++ e.Error) e) ∨
    (∃ e : GoError,
      err = .wrap ("failed to convert unstructured to typed object: " ++ e.Error) e) ∨
    (∃ obj : Obj,
      err = .new ("object of type " ++ w.fmtType obj ++ " does not implement client.Object")) := by
  rcases hl : loadTemplateResource w templatePath with ⟨r, _ | e0⟩
  · rcases ht : w.TemplateAndMerge ctx w.DefaultCompilers r (bindingsFromMap w ctx bindingsMap)
        [NewProjection r.UnstructuredContent] with e1 | merged
    · rw [ParseResource_of_template_error w c ctx templatePath bindingsMap r e1 hl ht] at herr
      cases herr
      exact Or.inr (Or.inl ⟨r, ht⟩)
    · rcases hs : c.Scheme with _ | scheme
      · rw [ParseResource_of_nil_scheme w c ctx templatePath bindingsMap r merged hl ht hs]
          at herr
        cases herr
        exact Or.inr (Or.inr (Or.inl rfl))
      · rcases hn : scheme.New (w.GroupVersionKind merged) with e2 | typed
        · rw [ParseResource_of_new_error w c ctx templatePath bindingsMap r merged scheme e2
            hl ht hs hn] at herr
          cases herr
          exact Or.inr (Or.inr (Or.inr (Or.inl ⟨_, e2, rfl⟩)))
        · rcases hc : w.FromUnstructured merged.Object typed with e3 | obj
          · rw [ParseResource_of_convert_error w c ctx templatePath bindingsMap r merged
              scheme typed e3 hl ht hs hn hc] at herr
            cases herr
            exact Or.inr (Or.inr (Or.inr (Or.inr (Or.inl ⟨e3, rfl⟩))))
          · rcases ho : w.isClientObject obj
            · rw [ParseResource_of_assert_failure w c ctx templatePath bindingsMap r merged
                scheme typed obj hl ht hs hn hc ho] at herr
              cases herr
              exact Or.inr (Or.inr (Or.inr (Or.inr (Or.inr ⟨obj, rfl⟩))))
            · rw [ParseResource_of_all_ok w c ctx templatePath bindingsMap r merged
                scheme typed obj hl ht hs hn hc ho] at herr
              cases herr
  · rw [ParseResource_of_load_error w c ctx templatePath bindingsMap e0 (by rw [hl])] at herr
    cases herr
    exact Or.inl rfl

/-- Witness for X3: the `Status` document ends in the failed assertion. -/
theorem ParseResource_error_taxonomy_witness :
    (ParseResource exampleWorld exampleClient () "status.yaml" []).2 =
      some (.new "object of type *v1.Status does not implement client.Object") ∧
    ((loadTemplateResource exampleWorld "status.yaml").2 =
        some (.new "object of type *v1.Status does not implement client.Object") ∨
      (∃ r : Unstructured,
        exampleWorld.TemplateAndMerge () exampleWorld.DefaultCompilers r
          (bindingsFromMap exampleWorld () []) [NewProjection r.UnstructuredContent] =
          .error (.new "object of type *v1.Status does not implement client.Object")) ∨
      GoError.new "object of type *v1.Status does not implement client.Object" =
        .new "client scheme is not set" ∨
      (∃ (gvk : GroupVersionKind) (e : GoError),
        GoError.new "object of type *v1.Status does not implement client.Object" =
          .wrap ("failed to create object for GVK " ++ exampleWorld.fmtGVK gvk ++ ": " ++
            e.Error) e) ∨
      (∃ e : GoError,
        GoError.new "object of type *v1.Status does not implement client.Object" =
          .wrap ("failed to convert unstructured to typed object: " ++ e.Error) e) ∨
      (∃ obj : RuntimeObject,
        GoError.new "object of type *v1.Status does not implement client.Object" =
          .new ("object of type " ++ exampleWorld.fmtType obj ++
            " does not implement client.Object"))) :=
  ⟨rfl, ParseResource_error_taxonomy exampleWorld exampleClient () "status.yaml" []
    (.new "object of type *v1.Status does not implement client.Object") rfl⟩

end Claims

end Chainsaw
